import Mathlib

/-!
Verification of the LC29H-DA-RPi-RTK relay core (`src/_node_version/app.js`).

The relay reads NMEA sentences from a serial stream, filters them by sentence
type and (optionally) by RTK fix quality, tracks the latest parsed GGA fix,
and broadcasts accepted sentences to a set of connected TCP clients.  A
separate NTRIP client forwards RTCM correction chunks of a successful HTTP
response to the serial write path.

Strings are embedded as `List Char` (`JsStr`): every JavaScript string
operation used by the source (`split`, `substring`, `slice`, `startsWith`,
`length`, indexing) maps to the corresponding list operation.  JavaScript
numbers produced by `parseInt`/`parseFloat` are embedded as `JsNum`:
either a rational value or `nan`, with `nan` propagating through arithmetic.
-/

/-- JavaScript strings, embedded as lists of characters. -/
abbrev JsStr := List Char

/-- Mirrors JavaScript `String.prototype.split(',')`: splits at every comma,
keeping empty fields; the result is never the empty list (splitting the
empty string yields one empty field, as in JS). -/
def splitFields : JsStr → List JsStr
  | [] => [[]]
  | c :: rest =>
    if c = ',' then [] :: splitFields rest
    else
      match splitFields rest with
      | f :: fs => (c :: f) :: fs
      | [] => [[c]]

/-- Value of a list of decimal digit characters, most significant first. -/
def digitsVal (l : List Char) : ℕ :=
  l.foldl (fun a c => a * 10 + (c.toNat - 48)) 0

/-- A JavaScript number that is either an actual (rational) value or NaN. -/
inductive JsNum where
  | num (q : ℚ)
  | nan
deriving DecidableEq

/-- JavaScript `+` on numbers: NaN propagates. -/
def JsNum.add : JsNum → JsNum → JsNum
  | num a, num b => num (a + b)
  | _, _ => nan

/-- JavaScript division by a nonzero numeric constant: NaN propagates. -/
def JsNum.divBy : JsNum → ℚ → JsNum
  | num a, d => num (a / d)
  | nan, _ => nan

/-- JavaScript multiplication by `-1`: NaN propagates. -/
def JsNum.neg : JsNum → JsNum
  | num a => num (-a)
  | nan => nan

/-- Mirrors JavaScript `parseInt(s, 10)` on a comma-split NMEA field: an
optional sign followed by the longest prefix of decimal digits; NaN when no
digit is present.  (Leading-whitespace skipping is irrelevant for these
fields and omitted.) -/
def parseIntJs (l : JsStr) : JsNum :=
  let sl : ℚ × JsStr :=
    if l.head? = some '-' then (-1, l.tail)
    else if l.head? = some '+' then (1, l.tail)
    else (1, l)
  let d := sl.2.takeWhile Char.isDigit
  if d = [] then .nan else .num (sl.1 * digitsVal d)

/-- Mirrors JavaScript `parseFloat` on a comma-split NMEA field: an optional
sign, an integer digit run, and optionally a dot followed by a fractional
digit run; NaN when no digit is present. -/
def parseFloatJs (l : JsStr) : JsNum :=
  let sl : ℚ × JsStr :=
    if l.head? = some '-' then (-1, l.tail)
    else if l.head? = some '+' then (1, l.tail)
    else (1, l)
  let ip := sl.2.takeWhile Char.isDigit
  let rest := sl.2.dropWhile Char.isDigit
  match rest with
  | '.' :: r2 =>
    let fp := r2.takeWhile Char.isDigit
    if ip = [] ∧ fp = [] then .nan
    else .num (sl.1 * ((digitsVal ip : ℚ) + (digitsVal fp : ℚ) / 10 ^ fp.length))
  | _ => if ip = [] then .nan else .num (sl.1 * digitsVal ip)

/-- Mirrors `parseNmeaCoord(coord, dir)` (app.js lines 143-150): `null`
(here `none`) for an empty or shorter-than-4-character field; otherwise the
integer value of the 2-character (latitude) or 3-character (longitude) degree
prefix plus the decimal minutes of the remainder divided by 60, negated for
`S` or `W`. -/
def parseNmeaCoord (coord : JsStr) (dir : JsStr) : Option JsNum :=
  if coord = [] ∨ coord.length < 4 then none
  else
    let degLen : ℕ := if dir = ['N'] ∨ dir = ['S'] then 2 else 3
    let deg := parseIntJs (coord.take degLen)
    let min := parseFloatJs (coord.drop degLen)
    let val := deg.add (min.divBy 60)
    some (if dir = ['S'] ∨ dir = ['W'] then val.neg else val)

/-- The record built by `parseGGA` (app.js lines 153-164); `lat`/`lon` are
`none` where the JS value is `null`. -/
structure GgaFix where
  lat : Option JsNum
  lon : Option JsNum
  fix : JsStr
  time : JsStr
  sats : JsNum
deriving DecidableEq

/-- Mirrors `parseGGA(sentence)` (app.js lines 153-164): `null` (`none`) when
the comma-split sentence has fewer than 15 fields, otherwise the decomposed
record. -/
def parseGGA (sentence : JsStr) : Option GgaFix :=
  let parts := splitFields sentence
  if parts.length < 15 then none
  else some
    { lat := parseNmeaCoord (parts.getD 2 []) (parts.getD 3 [])
      lon := parseNmeaCoord (parts.getD 4 []) (parts.getD 5 [])
      fix := parts.getD 6 []
      time := parts.getD 1 []
      sats := parseIntJs (parts.getD 7 []) }

/-- The filter configuration: `TCP_ALLOW_LIST` and `TCP_ONLY_RTK_FIXED`
(app.js lines 19-22), immutable after startup. -/
structure FilterConfig where
  allowList : List JsStr
  onlyRtkFixed : Bool
deriving DecidableEq

/-- The `latestGGA` cell contents: the parsed record plus the raw sentence
stored into `gga.raw` by the data handler (app.js lines 266-271). -/
structure LatestGGA where
  gga : GgaFix
  raw : JsStr
deriving DecidableEq

/-- Mirrors `data.substring(0, 6).substring(3, 6)` (app.js line 259): the
characters at positions 3-5 of the line (clamped for short lines). -/
def NMEA_SUFFIX (data : JsStr) : JsStr :=
  (data.take 6).drop 3

def GPGGA : JsStr := "$GPGGA".toList
def GNGGA : JsStr := "$GNGGA".toList
def GPRMC : JsStr := "$GPRMC".toList
def GNRMC : JsStr := "$GNRMC".toList

/-- Mirrors the `latestGGA` update (app.js lines 266-272): for a line
starting with `$GPGGA` or `$GNGGA` whose parse succeeds, the cell is replaced
by the parsed record together with the raw line; otherwise it is unchanged. -/
def trackGGA (latest : Option LatestGGA) (data : JsStr) : Option LatestGGA :=
  if GPGGA <+: data ∨ GNGGA <+: data then
    match parseGGA data with
    | some g => some ⟨g, data⟩
    | none => latest
  else latest

/-- Mirrors the `serial_stream.on('data')` handler (app.js lines 257-295) as
a function from the configuration, the current `latestGGA` cell and the input
line to the new cell and whether the line is broadcast to the clients.
The two RTK-gate conditions reproduce the JS `fields.length > 6 &&
fields[6] !== '4'` and `fields.length > 12 && fields[12] !== 'R'` guards
(the JS recomputes `fields` in each branch; `splitFields` is pure, so naming
it once is equivalent). -/
def onSerialData (cfg : FilterConfig) (latest : Option LatestGGA) (data : JsStr) :
    Option LatestGGA × Bool :=
  if NMEA_SUFFIX data ∉ cfg.allowList then (latest, false)
  else if cfg.onlyRtkFixed = true ∧ (GNGGA <+: data ∨ GPGGA <+: data) ∧
          6 < (splitFields data).length ∧ (splitFields data).getD 6 [] ≠ "4".toList then
    (trackGGA latest data, false)
  else if cfg.onlyRtkFixed = true ∧ (GNRMC <+: data ∨ GPRMC <+: data) ∧
          12 < (splitFields data).length ∧ (splitFields data).getD 12 [] ≠ "R".toList then
    (trackGGA latest data, false)
  else (trackGGA latest data, true)

/-- Default of the `TCP_ALLOW` environment variable (app.js line 19). -/
def TCP_ALLOW_default : JsStr := "RMC,VTG,GGA".toList

/-- Mirrors `process.env.TCP_ALLOW || 'RMC,VTG,GGA'` (app.js line 19): the
JS `||` falls back to the default exactly when the variable is `undefined`
(`none`) or the empty string. -/
def TCP_ALLOW (env : Option JsStr) : JsStr :=
  match env with
  | none => TCP_ALLOW_default
  | some s => if s = [] then TCP_ALLOW_default else s

/-- Mirrors `TCP_ALLOW.split(',')` (app.js line 20). -/
def TCP_ALLOW_LIST (env : Option JsStr) : List JsStr :=
  splitFields (TCP_ALLOW env)

/-- Default of `TCP_MAX_CLIENTS` (app.js line 17). -/
def TCP_MAX_CLIENTS : ℕ := 5

/-- A connected TCP client socket: an identity plus its writability flag. -/
structure Client where
  id : ℕ
  writable : Bool
deriving DecidableEq

/-- Mirrors the `net.createServer` connection callback (app.js lines
200-201): the socket is appended to `clients` unconditionally. -/
def connectionHandler (clients : List Client) (socket : Client) : List Client :=
  clients ++ [socket]

/-- Mirrors `clients.forEach(socket => { if (socket.writable)
socket.write(data + '\n') })` (app.js lines 292-294): the writes performed by
one broadcast, as pairs of client identity and written string. -/
def broadcastWrites (clients : List Client) (data : JsStr) : List (ℕ × JsStr) :=
  (clients.filter fun s => s.writable).map fun s => (s.id, data ++ ['\n'])

/-- Mirrors the socket error/close handlers (app.js lines 204-216):
`clients.indexOf(socket)` followed by `splice(idx, 1)` removes the first
occurrence of the socket, and is a no-op when the socket is absent — exactly
`List.erase`. -/
def removeClient (clients : List Client) (socket : Client) : List Client :=
  clients.erase socket

/-- Mirrors the `startNtripStream` response callback (app.js lines 96-110):
on a non-200 status the handler logs and returns, installing no data
listener, so nothing reaches the serial write path; on status 200 every
received chunk is written to the serial port in arrival order. -/
def ntripOnResponse (statusCode : ℕ) (chunks : List (List ℕ)) : List (List ℕ) :=
  if statusCode ≠ 200 then []
  else chunks.foldl (fun writes c => writes ++ [c]) []

/-! ### Helper lemmas -/

lemma splitFields_ne_nil (s : JsStr) : splitFields s ≠ [] := by
  cases s with
  | nil => simp [splitFields]
  | cons c rest =>
    simp only [splitFields]
    split
    · simp
    · cases h : splitFields rest with
      | nil => simp
      | cons f fs => simp

lemma digit_not_sign {c : Char} (h : c.isDigit = true) : c ≠ '-' ∧ c ≠ '+' := by
  constructor <;> rintro rfl <;> simp [Char.isDigit] at h

lemma head?_all_digits {l : List Char} (hd : ∀ c ∈ l, c.isDigit = true) :
    l.head? ≠ some '-' ∧ l.head? ≠ some '+' := by
  cases l with
  | nil => simp
  | cons c rest =>
    have hc := hd c (by simp)
    have := digit_not_sign hc
    simp [List.head?]
    exact ⟨this.1, this.2⟩

lemma parseIntJs_digits {d : List Char} (hd : ∀ c ∈ d, c.isDigit = true) (hne : d ≠ []) :
    parseIntJs d = .num (digitsVal d) := by
  obtain ⟨h1, h2⟩ := head?_all_digits hd
  simp only [parseIntJs, if_neg h1, if_neg h2, List.takeWhile_eq_self_iff.mpr hd,
    if_neg hne, one_mul]

lemma parseFloatJs_digits_dot {mi mf : List Char}
    (hmi : ∀ c ∈ mi, c.isDigit = true) (hmf : ∀ c ∈ mf, c.isDigit = true)
    (hmine : mi ≠ []) :
    parseFloatJs (mi ++ '.' :: mf) =
      .num ((digitsVal mi : ℚ) + (digitsVal mf : ℚ) / 10 ^ mf.length) := by
  obtain ⟨c, mi', rfl⟩ : ∃ c mi', mi = c :: mi' := by
    cases mi with
    | nil => exact absurd rfl hmine
    | cons c mi' => exact ⟨c, mi', rfl⟩
  have hc := digit_not_sign (hmi c (by simp))
  have h1 : ((c :: mi') ++ '.' :: mf).head? ≠ some '-' := by simp [hc.1]
  have h2 : ((c :: mi') ++ '.' :: mf).head? ≠ some '+' := by simp [hc.2]
  have htw : ((c :: mi') ++ '.' :: mf).takeWhile Char.isDigit = c :: mi' := by
    rw [List.takeWhile_append_of_pos hmi]
    simp [List.takeWhile_cons, Char.isDigit]
  have hdw : ((c :: mi') ++ '.' :: mf).dropWhile Char.isDigit = '.' :: mf := by
    rw [List.dropWhile_append_of_pos hmi]
    simp [List.dropWhile_cons, Char.isDigit]
  have hfp : mf.takeWhile Char.isDigit = mf := List.takeWhile_eq_self_iff.mpr hmf
  simp only [parseFloatJs, if_neg h1, if_neg h2, htw, hdw, hfp]
  simp

lemma parseNmeaCoord_digits {dd mi mf : List Char}
    (hdd : ∀ c ∈ dd, c.isDigit = true) (hmi : ∀ c ∈ mi, c.isDigit = true)
    (hmf : ∀ c ∈ mf, c.isDigit = true) (hddne : dd ≠ []) (hmine : mi ≠ [])
    (dir : JsStr) (hdeg : (if dir = ['N'] ∨ dir = ['S'] then 2 else 3) = dd.length) :
    parseNmeaCoord (dd ++ mi ++ '.' :: mf) dir =
      some (if dir = ['S'] ∨ dir = ['W'] then
        JsNum.num (-((digitsVal dd : ℚ) +
          ((digitsVal mi : ℚ) + (digitsVal mf : ℚ) / 10 ^ mf.length) / 60))
      else
        JsNum.num ((digitsVal dd : ℚ) +
          ((digitsVal mi : ℚ) + (digitsVal mf : ℚ) / 10 ^ mf.length) / 60)) := by
  have hlen : ¬(dd ++ mi ++ '.' :: mf = [] ∨ (dd ++ mi ++ '.' :: mf).length < 4) := by
    push_neg
    constructor
    · simp
    · have h1 : dd.length = 2 ∨ dd.length = 3 := by
        split at hdeg
        · exact Or.inl hdeg.symm
        · exact Or.inr hdeg.symm
      have h2 : 1 ≤ mi.length := List.length_pos.mpr hmine
      simp only [List.length_append, List.length_cons]
      omega
  have htake : (dd ++ mi ++ '.' :: mf).take dd.length = dd := by
    rw [List.append_assoc]
    exact List.take_left dd _
  have hdrop : (dd ++ mi ++ '.' :: mf).drop dd.length = mi ++ '.' :: mf := by
    rw [List.append_assoc]
    exact List.drop_left dd _
  simp only [parseNmeaCoord, if_neg hlen, hdeg, htake, hdrop,
    parseIntJs_digits hdd hddne, parseFloatJs_digits_dot hmi hmf hmine,
    JsNum.add, JsNum.divBy, JsNum.neg]

lemma pfx_gga_suffix {d : JsStr} (h : GPGGA <+: d ∨ GNGGA <+: d) :
    NMEA_SUFFIX d = "GGA".toList := by
  rcases h with ⟨t, rfl⟩ | ⟨t, rfl⟩ <;> rfl

lemma pfx_eq_of_len {a b d : List Char} (ha : a <+: d) (hb : b <+: d)
    (hl : a.length = b.length) : a = b :=
  (List.prefix_of_prefix_length_le ha hb hl.le).eq_of_length hl

lemma gga_not_rmc {d : JsStr} (h : GPGGA <+: d ∨ GNGGA <+: d) :
    ¬(GNRMC <+: d) ∧ ¬(GPRMC <+: d) := by
  constructor <;> intro hr <;> rcases h with hg | hg <;>
    exact absurd (pfx_eq_of_len hg hr (by decide)) (by decide)

lemma head?_of_pfx {c : Char} {p d : List Char} (h : (c :: p) <+: d) :
    d.head? = some c := by
  obtain ⟨t, rfl⟩ := h
  rfl

lemma getD_of_get? {l : List JsStr} {n : ℕ} {a : JsStr} (h : l.get? n = some a) :
    l.getD n [] = a := by
  obtain ⟨hlt, hget⟩ := List.get?_eq_some.mp h
  rw [List.getD_eq_get _ _ hlt, hget]

lemma lt_length_of_get? {l : List JsStr} {n : ℕ} {a : JsStr}
    (h : l.get? n = some a) : n < l.length :=
  (List.get?_eq_some.mp h).1

lemma onSerialData_not_allowed {cfg : FilterConfig} {latest : Option LatestGGA}
    {data : JsStr} (h : NMEA_SUFFIX data ∉ cfg.allowList) :
    onSerialData cfg latest data = (latest, false) := by
  rw [onSerialData, if_pos h]

lemma onSerialData_fst_allowed {cfg : FilterConfig} {latest : Option LatestGGA}
    {data : JsStr} (h : NMEA_SUFFIX data ∈ cfg.allowList) :
    (onSerialData cfg latest data).1 = trackGGA latest data := by
  rw [onSerialData, if_neg (not_not_intro h)]
  split_ifs <;> rfl

lemma onSerialData_rtkOff_allowed {al : List JsStr} {latest : Option LatestGGA}
    {data : JsStr} (h : NMEA_SUFFIX data ∈ al) :
    onSerialData ⟨al, false⟩ latest data = (trackGGA latest data, true) := by
  rw [onSerialData, if_neg (not_not_intro h)]
  simp

lemma trackGGA_of_parse {latest : Option LatestGGA} {data : JsStr} {g : GgaFix}
    (hp : GPGGA <+: data ∨ GNGGA <+: data) (hg : parseGGA data = some g) :
    trackGGA latest data = some ⟨g, data⟩ := by
  rw [trackGGA, if_pos hp, hg]

lemma trackGGA_of_parse_none {latest : Option LatestGGA} {data : JsStr}
    (hg : parseGGA data = none) : trackGGA latest data = latest := by
  rw [trackGGA]
  split_ifs with h
  · rw [hg]
  · rfl

lemma trackGGA_not_gga {latest : Option LatestGGA} {data : JsStr}
    (h1 : ¬(GPGGA <+: data)) (h2 : ¬(GNGGA <+: data)) :
    trackGGA latest data = latest := by
  rw [trackGGA, if_neg (by rintro (h | h) <;> [exact h1 h; exact h2 h])]

lemma parseGGA_eq_none_iff (s : JsStr) :
    parseGGA s = none ↔ (splitFields s).length < 15 := by
  rw [parseGGA]
  split_ifs with h <;> simp [h]

lemma foldl_append_chunks (chunks : List (List ℕ)) (acc : List (List ℕ)) :
    chunks.foldl (fun writes c => writes ++ [c]) acc = acc ++ chunks := by
  induction chunks generalizing acc with
  | nil => simp
  | cons c rest ih => simp [List.foldl_cons, ih]

lemma rmc_not_gga {d : JsStr} (h : GPRMC <+: d ∨ GNRMC <+: d) :
    ¬(GNGGA <+: d) ∧ ¬(GPGGA <+: d) := by
  constructor <;> intro hr <;> rcases h with hg | hg <;>
    exact absurd (pfx_eq_of_len hg hr (by decide)) (by decide)

/-! ### Claim theorems -/

/-- C6: for a well-formed NMEA coordinate field (an all-digit degree prefix of
width 2 for latitude directions `N`/`S`, width 3 for longitude directions
`E`/`W`, followed by decimal minutes `mi.mf`), the decoder returns
degrees + minutes/60, negated exactly for `S` and `W`; fields that are empty
or shorter than four characters decode to `none` (`null`). -/
theorem claim_C6_coord_decode (dd mi mf : List Char)
    (hdd : ∀ c ∈ dd, c.isDigit = true) (hmi : ∀ c ∈ mi, c.isDigit = true)
    (hmf : ∀ c ∈ mf, c.isDigit = true) (hmine : mi ≠ []) :
    (dd.length = 2 →
      parseNmeaCoord (dd ++ mi ++ '.' :: mf) ['N'] =
        some (.num ((digitsVal dd : ℚ) +
          ((digitsVal mi : ℚ) + (digitsVal mf : ℚ) / 10 ^ mf.length) / 60)) ∧
      parseNmeaCoord (dd ++ mi ++ '.' :: mf) ['S'] =
        some (.num (-((digitsVal dd : ℚ) +
          ((digitsVal mi : ℚ) + (digitsVal mf : ℚ) / 10 ^ mf.length) / 60)))) ∧
    (dd.length = 3 →
      parseNmeaCoord (dd ++ mi ++ '.' :: mf) ['E'] =
        some (.num ((digitsVal dd : ℚ) +
          ((digitsVal mi : ℚ) + (digitsVal mf : ℚ) / 10 ^ mf.length) / 60)) ∧
      parseNmeaCoord (dd ++ mi ++ '.' :: mf) ['W'] =
        some (.num (-((digitsVal dd : ℚ) +
          ((digitsVal mi : ℚ) + (digitsVal mf : ℚ) / 10 ^ mf.length) / 60)))) ∧
    (∀ coord dir : JsStr, coord.length < 4 → parseNmeaCoord coord dir = none) := by
  refine ⟨fun h2 => ⟨?_, ?_⟩, fun h3 => ⟨?_, ?_⟩, fun coord dir h => ?_⟩
  · have hddne : dd ≠ [] := by intro h; rw [h] at h2; simp at h2
    have := parseNmeaCoord_digits hdd hmi hmf hddne hmine ['N']
      (by rw [if_pos (Or.inl rfl)]; exact h2.symm)
    rwa [if_neg (by decide)] at this
  · have hddne : dd ≠ [] := by intro h; rw [h] at h2; simp at h2
    have := parseNmeaCoord_digits hdd hmi hmf hddne hmine ['S']
      (by rw [if_pos (Or.inr rfl)]; exact h2.symm)
    rwa [if_pos (Or.inl rfl)] at this
  · have hddne : dd ≠ [] := by intro h; rw [h] at h3; simp at h3
    have := parseNmeaCoord_digits hdd hmi hmf hddne hmine ['E']
      (by rw [if_neg (by decide)]; exact h3.symm)
    rwa [if_neg (by decide)] at this
  · have hddne : dd ≠ [] := by intro h; rw [h] at h3; simp at h3
    have := parseNmeaCoord_digits hdd hmi hmf hddne hmine ['W']
      (by rw [if_neg (by decide)]; exact h3.symm)
    rwa [if_pos (Or.inr rfl)] at this
  · rw [parseNmeaCoord, if_pos (Or.inr h)]

/-- Witness for C6: `4916.45,N` decodes to `49 + 16.45/60 = 59129/1200`
(≈ 49.27416666), `4916.45,S` to its negation, `01131.000,W` to
`-(11 + 31/60)`, and short or empty fields decode to `none`. -/
theorem claim_C6_coord_decode_witness :
    parseNmeaCoord "4916.45".toList ['N'] = some (.num (59129 / 1200)) ∧
    parseNmeaCoord "4916.45".toList ['S'] = some (.num (-(59129 / 1200))) ∧
    parseNmeaCoord "01131.000".toList ['W'] = some (.num (-(691 / 60))) ∧
    parseNmeaCoord "491".toList ['N'] = none ∧
    parseNmeaCoord [] ['E'] = none := by
  have h1 := claim_C6_coord_decode "49".toList "16".toList "45".toList
    (by decide) (by decide) (by decide) (by decide)
  have h2 := claim_C6_coord_decode "011".toList "31".toList "000".toList
    (by decide) (by decide) (by decide) (by decide)
  have d49 : digitsVal "49".toList = 49 := by decide
  have d16 : digitsVal "16".toList = 16 := by decide
  have d45 : digitsVal "45".toList = 45 := by decide
  have d011 : digitsVal "011".toList = 11 := by decide
  have d31 : digitsVal "31".toList = 31 := by decide
  have d000 : digitsVal "000".toList = 0 := by decide
  have e1 : "4916.45".toList = "49".toList ++ "16".toList ++ '.' :: "45".toList := by decide
  have e2 : "01131.000".toList = "011".toList ++ "31".toList ++ '.' :: "000".toList := by decide
  refine ⟨?_, ?_, ?_, ?_, ?_⟩
  · rw [e1, (h1.1 (by decide)).1, d49, d16, d45]
    norm_num
  · rw [e1, (h1.1 (by decide)).2, d49, d16, d45]
    norm_num
  · rw [e2, (h2.2.1 (by decide)).2, d011, d31, d000]
    norm_num
  · exact h1.2.2 _ _ (by decide)
  · exact h1.2.2 _ _ (by decide)

/-- C9: the NTRIP response handler forwards every body chunk verbatim and in
order to the serial write path when the response status is 200, and forwards
nothing at all on any other status. -/
theorem claim_C9_ntrip_forwarding (statusCode : ℕ) (chunks : List (List ℕ)) :
    (statusCode = 200 → ntripOnResponse statusCode chunks = chunks) ∧
    (statusCode ≠ 200 → ntripOnResponse statusCode chunks = []) := by
  constructor
  · intro h
    rw [ntripOnResponse, if_neg (by simp [h]), foldl_append_chunks]
    simp
  · intro h
    rw [ntripOnResponse, if_pos h]

/-- Witness for C9: a 200 response forwards both chunks unchanged; a 404
response forwards nothing. -/
theorem claim_C9_ntrip_forwarding_witness :
    ntripOnResponse 200 [[211, 67], [8, 9]] = [[211, 67], [8, 9]] ∧
    ntripOnResponse 404 [[211, 67], [8, 9]] = [] :=
  ⟨(claim_C9_ntrip_forwarding 200 [[211, 67], [8, 9]]).1 rfl,
   (claim_C9_ntrip_forwarding 404 [[211, 67], [8, 9]]).2 (by decide)⟩

/-- C10: an unset or empty `TCP_ALLOW` environment variable yields the allow
list exactly `[RMC, VTG, GGA]`; the allow list is non-empty for every
possible value of the variable (so the forward-everything case of an empty
allow set is unreachable); and every line whose extracted type is outside the
configured list is dropped. -/
theorem claim_C10_allow_default :
    (TCP_ALLOW_LIST none = ["RMC".toList, "VTG".toList, "GGA".toList] ∧
     TCP_ALLOW_LIST (some []) = ["RMC".toList, "VTG".toList, "GGA".toList]) ∧
    (∀ env, TCP_ALLOW_LIST env ≠ []) ∧
    (∀ env (rtk : Bool) latest data, NMEA_SUFFIX data ∉ TCP_ALLOW_LIST env →
      (onSerialData ⟨TCP_ALLOW_LIST env, rtk⟩ latest data).2 = false) := by
  refine ⟨⟨by decide, by decide⟩, fun env => splitFields_ne_nil _, ?_⟩
  intro env rtk latest data h
  rw [onSerialData_not_allowed h]

/-- Witness for C10: the allow list built from `TCP_ALLOW=ZDA` is non-empty,
and with the default allow list a GSV line is dropped. -/
theorem claim_C10_allow_default_witness :
    TCP_ALLOW_LIST (some "ZDA".toList) ≠ [] ∧
    (onSerialData ⟨TCP_ALLOW_LIST none, false⟩ none "$GPGSV,1,1,00".toList).2 = false :=
  ⟨claim_C10_allow_default.2.1 (some "ZDA".toList),
   claim_C10_allow_default.2.2 none false none "$GPGSV,1,1,00".toList (by decide)⟩

/-- C2: a line whose extracted type (characters at positions 4-6) is not in
the configured allow list is never broadcast; with the default allow list
`{RMC, VTG, GGA}` and the RTK gate off, every GSV line is dropped and every
GGA line is forwarded regardless of its fix-quality field. -/
theorem claim_C2_allow_filter :
    (∀ cfg latest data, NMEA_SUFFIX data ∉ cfg.allowList →
      (onSerialData cfg latest data).2 = false) ∧
    (∀ latest data, NMEA_SUFFIX data = "GSV".toList →
      (onSerialData ⟨TCP_ALLOW_LIST none, false⟩ latest data).2 = false) ∧
    (∀ latest data, NMEA_SUFFIX data = "GGA".toList →
      (onSerialData ⟨TCP_ALLOW_LIST none, false⟩ latest data).2 = true) := by
  refine ⟨?_, ?_, ?_⟩
  · intro cfg latest data h
    rw [onSerialData_not_allowed h]
  · intro latest data h
    have hm : NMEA_SUFFIX data ∉ TCP_ALLOW_LIST none := by rw [h]; decide
    rw [onSerialData_not_allowed hm]
  · intro latest data h
    have hm : NMEA_SUFFIX data ∈ TCP_ALLOW_LIST none := by rw [h]; decide
    rw [onSerialData_rtkOff_allowed hm]

/-- Witness for C2: a concrete GSV line is dropped and a concrete GGA line
with fix quality 1 is forwarded when the gate is off. -/
theorem claim_C2_allow_filter_witness :
    (onSerialData ⟨TCP_ALLOW_LIST none, false⟩ none "$GPGSV,3,1,09".toList).2 = false ∧
    (onSerialData ⟨TCP_ALLOW_LIST none, false⟩ none
      "$GPGGA,123519,4807.038,N,01131.000,E,1,08,0.9,545.4,M,46.9,M,,".toList).2 = true :=
  ⟨claim_C2_allow_filter.2.1 none "$GPGSV,3,1,09".toList (by decide),
   claim_C2_allow_filter.2.2 none
     "$GPGGA,123519,4807.038,N,01131.000,E,1,08,0.9,545.4,M,46.9,M,,".toList (by decide)⟩

/-- Counterexample to C1 as stated: with the RTK gate enabled, the GGA line
`$GPGGA,1,2,3,4,5` has only six comma-delimited fields, so its 7th field does
not exist (in particular does not equal "4"), yet the handler broadcasts it —
the gate only fires when `fields.length > 6`. -/
theorem claim_C1_counterexample :
    (onSerialData ⟨TCP_ALLOW_LIST none, true⟩ none "$GPGGA,1,2,3,4,5".toList).2 = true ∧
    (splitFields "$GPGGA,1,2,3,4,5".toList).get? 6 ≠ some "4".toList :=
  ⟨by decide, by decide⟩

/-- C1 (amended): with the RTK gate enabled, a line starting with `$GPGGA` or
`$GNGGA` is broadcast only if it has at most 6 comma-delimited fields or its
fix-quality field (the 7th) equals "4"; in particular a GGA line whose 7th
field is "1" is dropped, and one whose 7th field is "4" is forwarded whenever
"GGA" is in the allow list; a line starting with `$GPRMC` or `$GNRMC` is
broadcast only if it has at most 12 fields or its mode field (the 13th)
equals "R"; lines with none of these four prefixes are unaffected by the
gate. -/
theorem claim_C1_rtk_gate (cfg : FilterConfig) (hrtk : cfg.onlyRtkFixed = true) :
    (∀ latest data, (GPGGA <+: data ∨ GNGGA <+: data) →
        (onSerialData cfg latest data).2 = true →
        6 < (splitFields data).length → (splitFields data).getD 6 [] = "4".toList) ∧
    (∀ latest data, (GPGGA <+: data ∨ GNGGA <+: data) →
        (splitFields data).get? 6 = some "1".toList →
        (onSerialData cfg latest data).2 = false) ∧
    (∀ latest data, (GPGGA <+: data ∨ GNGGA <+: data) →
        "GGA".toList ∈ cfg.allowList →
        (splitFields data).get? 6 = some "4".toList →
        (onSerialData cfg latest data).2 = true) ∧
    (∀ latest data, (GPRMC <+: data ∨ GNRMC <+: data) →
        (onSerialData cfg latest data).2 = true →
        12 < (splitFields data).length → (splitFields data).getD 12 [] = "R".toList) ∧
    (∀ latest data, ¬(GPGGA <+: data) → ¬(GNGGA <+: data) →
        ¬(GPRMC <+: data) → ¬(GNRMC <+: data) →
        (onSerialData cfg latest data).2 =
          (onSerialData ⟨cfg.allowList, false⟩ latest data).2) := by
  refine ⟨?_, ?_, ?_, ?_, ?_⟩
  · intro latest data hp hb hlen
    by_contra hne
    rcases em (NMEA_SUFFIX data ∉ cfg.allowList) with hm | hm
    · rw [onSerialData_not_allowed hm] at hb
      simp at hb
    · rw [onSerialData, if_neg hm, if_pos ⟨hrtk, hp.symm, hlen, hne⟩] at hb
      simp at hb
  · intro latest data hp h6
    rcases em (NMEA_SUFFIX data ∉ cfg.allowList) with hm | hm
    · rw [onSerialData_not_allowed hm]
    · rw [onSerialData, if_neg hm, if_pos ⟨hrtk, hp.symm, lt_length_of_get? h6,
        by rw [getD_of_get? h6]; decide⟩]
  · intro latest data hp hal h4
    have hm : NMEA_SUFFIX data ∈ cfg.allowList := by rw [pfx_gga_suffix hp]; exact hal
    have hc1 : ¬(cfg.onlyRtkFixed = true ∧ (GNGGA <+: data ∨ GPGGA <+: data) ∧
        6 < (splitFields data).length ∧ (splitFields data).getD 6 [] ≠ "4".toList) := by
      rintro ⟨-, -, -, hx⟩
      exact hx (getD_of_get? h4)
    have hc2 : ¬(cfg.onlyRtkFixed = true ∧ (GNRMC <+: data ∨ GPRMC <+: data) ∧
        12 < (splitFields data).length ∧ (splitFields data).getD 12 [] ≠ "R".toList) := by
      rintro ⟨-, hr, -, -⟩
      rcases hr with hr | hr
      · exact (gga_not_rmc hp).1 hr
      · exact (gga_not_rmc hp).2 hr
    rw [onSerialData, if_neg (not_not_intro hm), if_neg hc1, if_neg hc2]
  · intro latest data hp hb hlen
    by_contra hne
    rcases em (NMEA_SUFFIX data ∉ cfg.allowList) with hm | hm
    · rw [onSerialData_not_allowed hm] at hb
      simp at hb
    · have hc1 : ¬(cfg.onlyRtkFixed = true ∧ (GNGGA <+: data ∨ GPGGA <+: data) ∧
          6 < (splitFields data).length ∧ (splitFields data).getD 6 [] ≠ "4".toList) := by
        rintro ⟨-, hg, -, -⟩
        rcases hg with hg | hg
        · exact (rmc_not_gga hp).1 hg
        · exact (rmc_not_gga hp).2 hg
      rw [onSerialData, if_neg hm, if_neg hc1, if_pos ⟨hrtk, hp.symm, hlen, hne⟩] at hb
      simp at hb
  · intro latest data h1 h2 h3 h4
    have hcg : ∀ b : Bool, ¬(b = true ∧ (GNGGA <+: data ∨ GPGGA <+: data) ∧
        6 < (splitFields data).length ∧ (splitFields data).getD 6 [] ≠ "4".toList) := by
      rintro b ⟨-, hg, -, -⟩
      rcases hg with hg | hg
      · exact h2 hg
      · exact h1 hg
    have hcr : ∀ b : Bool, ¬(b = true ∧ (GNRMC <+: data ∨ GPRMC <+: data) ∧
        12 < (splitFields data).length ∧ (splitFields data).getD 12 [] ≠ "R".toList) := by
      rintro b ⟨-, hr, -, -⟩
      rcases hr with hr | hr
      · exact h4 hr
      · exact h3 hr
    rcases em (NMEA_SUFFIX data ∉ cfg.allowList) with hm | hm
    · rw [onSerialData_not_allowed hm,
        @onSerialData_not_allowed ⟨cfg.allowList, false⟩ latest data hm]
    · rw [onSerialData, if_neg hm, if_neg (hcg _), if_neg (hcr _),
        onSerialData, if_neg hm, if_neg (hcg _), if_neg (hcr _)]

/-- Witness for C1 (amended): with the gate enabled, a 15-field GGA line with
fix quality "1" is dropped and one with fix quality "4" is forwarded. -/
theorem claim_C1_rtk_gate_witness :
    (onSerialData ⟨TCP_ALLOW_LIST none, true⟩ none "$GPGGA,,,,,,1,,,,,,,,".toList).2 = false ∧
    (onSerialData ⟨TCP_ALLOW_LIST none, true⟩ none "$GPGGA,,,,,,4,,,,,,,,".toList).2 = true :=
  ⟨(claim_C1_rtk_gate ⟨TCP_ALLOW_LIST none, true⟩ rfl).2.1 none
      "$GPGGA,,,,,,1,,,,,,,,".toList (Or.inl (by decide)) (by decide),
   (claim_C1_rtk_gate ⟨TCP_ALLOW_LIST none, true⟩ rfl).2.2.1 none
      "$GPGGA,,,,,,4,,,,,,,,".toList (Or.inl (by decide)) (by decide) (by decide)⟩

/-- Counterexample to C4 as stated: the line `xxxGGA` does not start with `$`,
yet with the default configuration it is broadcast, because the filter only
inspects the characters at positions 4-6 and never the leading `$`. -/
theorem claim_C4_counterexample :
    "xxxGGA".toList.head? ≠ some '$' ∧
    (onSerialData ⟨TCP_ALLOW_LIST none, false⟩ none "xxxGGA".toList).2 = true :=
  ⟨by decide, by decide⟩

/-- C4 (amended): for a line that does not start with `$`, the handler never
tests for the leading `$`: the line is broadcast exactly when its characters
at positions 4-6 are in the allow list (the RTK gate cannot fire on such a
line, since the gated prefixes all start with `$`). -/
theorem claim_C4_no_dollar (cfg : FilterConfig) (latest : Option LatestGGA)
    (data : JsStr) (h : data.head? ≠ some '$') :
    (onSerialData cfg latest data).2 = true ↔ NMEA_SUFFIX data ∈ cfg.allowList := by
  have hgp : ¬(GPGGA <+: data) := by
    intro hp
    rw [show GPGGA = '$' :: ['G', 'P', 'G', 'G', 'A'] from rfl] at hp
    exact h (head?_of_pfx hp)
  have hgn : ¬(GNGGA <+: data) := by
    intro hp
    rw [show GNGGA = '$' :: ['G', 'N', 'G', 'G', 'A'] from rfl] at hp
    exact h (head?_of_pfx hp)
  have hrp : ¬(GPRMC <+: data) := by
    intro hp
    rw [show GPRMC = '$' :: ['G', 'P', 'R', 'M', 'C'] from rfl] at hp
    exact h (head?_of_pfx hp)
  have hrn : ¬(GNRMC <+: data) := by
    intro hp
    rw [show GNRMC = '$' :: ['G', 'N', 'R', 'M', 'C'] from rfl] at hp
    exact h (head?_of_pfx hp)
  rcases em (NMEA_SUFFIX data ∈ cfg.allowList) with hm | hm
  · have hc1 : ¬(cfg.onlyRtkFixed = true ∧ (GNGGA <+: data ∨ GPGGA <+: data) ∧
        6 < (splitFields data).length ∧ (splitFields data).getD 6 [] ≠ "4".toList) := by
      rintro ⟨-, hg, -, -⟩
      rcases hg with hg | hg
      · exact hgn hg
      · exact hgp hg
    have hc2 : ¬(cfg.onlyRtkFixed = true ∧ (GNRMC <+: data ∨ GPRMC <+: data) ∧
        12 < (splitFields data).length ∧ (splitFields data).getD 12 [] ≠ "R".toList) := by
      rintro ⟨-, hr, -, -⟩
      rcases hr with hr | hr
      · exact hrn hr
      · exact hrp hr
    rw [onSerialData, if_neg (not_not_intro hm), if_neg hc1, if_neg hc2]
    simp [hm]
  · rw [onSerialData_not_allowed hm]
    simp [hm]

/-- Witness for C4 (amended): the non-`$` line `yyyGGA` is broadcast under
the default configuration because its positions 4-6 read `GGA`. -/
theorem claim_C4_no_dollar_witness :
    (onSerialData ⟨TCP_ALLOW_LIST none, false⟩ none "yyyGGA".toList).2 = true :=
  (claim_C4_no_dollar ⟨TCP_ALLOW_LIST none, false⟩ none "yyyGGA".toList
    (by decide)).mpr (by decide)

/-- Counterexample to C3 as stated: with the RTK gate enabled, the 15-field
GGA line `$GPGGA,,,,,,1,,,,,,,,` (fix quality "1", not "4") replaces the
stored latest fix even though the gate drops it from broadcast — the
`latestGGA` update happens before the gate, not downstream of it. -/
theorem claim_C3_counterexample :
    (onSerialData ⟨TCP_ALLOW_LIST none, true⟩ none
      "$GPGGA,,,,,,1,,,,,,,,".toList).1.isSome = true ∧
    (onSerialData ⟨TCP_ALLOW_LIST none, true⟩ none
      "$GPGGA,,,,,,1,,,,,,,,".toList).2 = false :=
  ⟨by decide, by decide⟩

/-- C3 (amended): the Position Tracker sits downstream of the allow-list
filter but upstream of the RTK fix-quality gate: the stored latest fix is
replaced by every `$GPGGA`/`$GNGGA` line that passes the allow list and
parses (15 or more fields), regardless of the gate's verdict; a line that
fails the allow list, or is not GGA-prefixed, leaves the stored fix
unchanged. -/
theorem claim_C3_tracker_order (cfg : FilterConfig) (latest : Option LatestGGA)
    (data : JsStr) :
    (∀ g, NMEA_SUFFIX data ∈ cfg.allowList → (GPGGA <+: data ∨ GNGGA <+: data) →
        parseGGA data = some g →
        (onSerialData cfg latest data).1 = some ⟨g, data⟩) ∧
    (NMEA_SUFFIX data ∉ cfg.allowList → (onSerialData cfg latest data).1 = latest) ∧
    (¬(GPGGA <+: data) → ¬(GNGGA <+: data) →
        (onSerialData cfg latest data).1 = latest) := by
  refine ⟨?_, ?_, ?_⟩
  · intro g hm hp hg
    rw [onSerialData_fst_allowed hm, trackGGA_of_parse hp hg]
  · intro hm
    rw [onSerialData_not_allowed hm]
  · intro h1 h2
    rcases em (NMEA_SUFFIX data ∈ cfg.allowList) with hm | hm
    · rw [onSerialData_fst_allowed hm, trackGGA_not_gga h1 h2]
    · rw [onSerialData_not_allowed hm]

/-- Witness for C3 (amended): with the gate on, the dropped fix-quality-"1"
line still replaces the stored fix with its parsed record and raw text. -/
theorem claim_C3_tracker_order_witness :
    (onSerialData ⟨TCP_ALLOW_LIST none, true⟩ none
      "$GPGGA,,,,,,1,,,,,,,,".toList).1 =
      some ⟨⟨none, none, ['1'], [], .nan⟩, "$GPGGA,,,,,,1,,,,,,,,".toList⟩ :=
  (claim_C3_tracker_order ⟨TCP_ALLOW_LIST none, true⟩ none
    "$GPGGA,,,,,,1,,,,,,,,".toList).1 ⟨none, none, ['1'], [], .nan⟩
    (by decide) (Or.inl (by decide)) (by decide)

/-- Counterexample to C5 as stated: the 15-field GGA line
`$GPGGA,123519,,,,,1,08,0.9,545.4,M,46.9,M,,` has an empty latitude field,
yet `parseGGA` returns a fix record (with a `null` latitude component) rather
than no fix, and that record replaces the stored latest fix. -/
theorem claim_C5_counterexample :
    (splitFields "$GPGGA,123519,,,,,1,08,0.9,545.4,M,46.9,M,,".toList).getD 2 ['x'] = [] ∧
    (parseGGA "$GPGGA,123519,,,,,1,08,0.9,545.4,M,46.9,M,,".toList).isSome = true ∧
    (onSerialData ⟨TCP_ALLOW_LIST none, true⟩ none
      "$GPGGA,123519,,,,,1,08,0.9,545.4,M,46.9,M,,".toList).1.isSome = true :=
  ⟨by decide, by decide, by decide⟩

/-- C5 (amended): `parseGGA` returns no fix exactly when the sentence has
fewer than 15 comma-delimited fields (empty or malformed latitude/longitude
fields only make the corresponding components `null` inside a returned fix);
a sentence with fewer than 15 fields never replaces the stored latest fix,
yet remains eligible for broadcast on type alone, and the parse failure never
halts the relay of the sentence. -/
theorem claim_C5_parse_failure :
    (∀ s, parseGGA s = none ↔ (splitFields s).length < 15) ∧
    (∀ cfg latest data, (splitFields data).length < 15 →
        (onSerialData cfg latest data).1 = latest) ∧
    (∀ al latest data, NMEA_SUFFIX data ∈ al →
        (onSerialData ⟨al, false⟩ latest data).2 = true) := by
  refine ⟨parseGGA_eq_none_iff, ?_, ?_⟩
  · intro cfg latest data hlen
    rcases em (NMEA_SUFFIX data ∈ cfg.allowList) with hm | hm
    · rw [onSerialData_fst_allowed hm,
        trackGGA_of_parse_none ((parseGGA_eq_none_iff data).mpr hlen)]
    · rw [onSerialData_not_allowed hm]
  · intro al latest data hm
    rw [onSerialData_rtkOff_allowed hm]

/-- Witness for C5 (amended): the 3-field line `$GPGGA,1,2` yields no fix,
leaves the stored fix unchanged, and is still broadcast on type alone. -/
theorem claim_C5_parse_failure_witness :
    parseGGA "$GPGGA,1,2".toList = none ∧
    (onSerialData ⟨TCP_ALLOW_LIST none, false⟩ none "$GPGGA,1,2".toList).1 = none ∧
    (onSerialData ⟨TCP_ALLOW_LIST none, false⟩ none "$GPGGA,1,2".toList).2 = true :=
  ⟨(claim_C5_parse_failure.1 "$GPGGA,1,2".toList).mpr (by decide),
   claim_C5_parse_failure.2.1 ⟨TCP_ALLOW_LIST none, false⟩ none
     "$GPGGA,1,2".toList (by decide),
   claim_C5_parse_failure.2.2 (TCP_ALLOW_LIST none) none
     "$GPGGA,1,2".toList (by decide)⟩

/-- Counterexample to C7 as stated: with five registered clients (the
configured maximum), a sixth transport-accepted connection is pushed into the
registry unconditionally and does receive broadcasts — the registry performs
no count check of its own. -/
theorem claim_C7_counterexample :
    ([⟨0, true⟩, ⟨1, true⟩, ⟨2, true⟩, ⟨3, true⟩, ⟨4, true⟩] : List Client).length =
      TCP_MAX_CLIENTS ∧
    ((5 : ℕ), "$GPGGA,x".toList ++ ['\n']) ∈
      broadcastWrites
        (connectionHandler [⟨0, true⟩, ⟨1, true⟩, ⟨2, true⟩, ⟨3, true⟩, ⟨4, true⟩]
          ⟨5, true⟩)
        "$GPGGA,x".toList :=
  ⟨by decide, by decide⟩

/-- C7 (amended): the registry does not itself enforce the maximum subscriber
count — only the transport-level `maxConnections` setting limits connections.
The connection handler appends every transport-accepted socket to the
deliverable set (growing it past the configured maximum), and that socket
then receives broadcasts while writable. -/
theorem claim_C7_transport_only_cap (clients : List Client) (socket : Client)
    (data : JsStr) :
    (clients.length = TCP_MAX_CLIENTS →
        (connectionHandler clients socket).length = TCP_MAX_CLIENTS + 1) ∧
    (socket.writable = true →
        (socket.id, data ++ ['\n']) ∈
          broadcastWrites (connectionHandler clients socket) data) := by
  constructor
  · intro h
    simp [connectionHandler, h]
  · intro hw
    have hmem : socket ∈ connectionHandler clients socket := by
      simp [connectionHandler]
    exact List.mem_map_of_mem _ (List.mem_filter.mpr ⟨hmem, hw⟩)

/-- Witness for C7 (amended): a sixth socket joins a full registry of five
and receives the broadcast. -/
theorem claim_C7_transport_only_cap_witness :
    (connectionHandler [⟨0, true⟩, ⟨1, true⟩, ⟨2, true⟩, ⟨3, true⟩, ⟨4, true⟩]
      ⟨9, true⟩).length = TCP_MAX_CLIENTS + 1 ∧
    ((9 : ℕ), "$GNGGA,x".toList ++ ['\n']) ∈
      broadcastWrites
        (connectionHandler [⟨0, true⟩, ⟨1, true⟩, ⟨2, true⟩, ⟨3, true⟩, ⟨4, true⟩]
          ⟨9, true⟩)
        "$GNGGA,x".toList :=
  ⟨(claim_C7_transport_only_cap
      [⟨0, true⟩, ⟨1, true⟩, ⟨2, true⟩, ⟨3, true⟩, ⟨4, true⟩] ⟨9, true⟩
      "$GNGGA,x".toList).1 (by decide),
   (claim_C7_transport_only_cap
      [⟨0, true⟩, ⟨1, true⟩, ⟨2, true⟩, ⟨3, true⟩, ⟨4, true⟩] ⟨9, true⟩
      "$GNGGA,x".toList).2 rfl⟩

/-- C8: one broadcast writes the sentence plus a line terminator to every
writable registered client; when one client errors, it is removed while every
other client still receives this and subsequent broadcasts; and removing an
already-removed client leaves the registry unchanged. -/
theorem claim_C8_broadcast_isolation (clients : List Client)
    (errSock c : Client) (data : JsStr) :
    (c ∈ clients → c.writable = true →
        (c.id, data ++ ['\n']) ∈ broadcastWrites clients data) ∧
    (c ∈ clients → c ≠ errSock → c.writable = true →
        (c.id, data ++ ['\n']) ∈ broadcastWrites (removeClient clients errSock) data) ∧
    (errSock ∉ clients → removeClient clients errSock = clients) := by
  refine ⟨?_, ?_, ?_⟩
  · intro hm hw
    exact List.mem_map_of_mem _ (List.mem_filter.mpr ⟨hm, hw⟩)
  · intro hm hne hw
    have hm' : c ∈ removeClient clients errSock := (List.mem_erase_of_ne hne).mpr hm
    exact List.mem_map_of_mem _ (List.mem_filter.mpr ⟨hm', hw⟩)
  · intro h
    exact List.erase_of_not_mem h

/-- Witness for C8: in a registry of three writable clients, client 2
receives the broadcast both before and after erroring client 1 is removed,
and removing an absent client is a no-op. -/
theorem claim_C8_broadcast_isolation_witness :
    ((2 : ℕ), "$GPRMC,a".toList ++ ['\n']) ∈
      broadcastWrites [⟨0, true⟩, ⟨1, true⟩, ⟨2, true⟩] "$GPRMC,a".toList ∧
    ((2 : ℕ), "$GPRMC,a".toList ++ ['\n']) ∈
      broadcastWrites (removeClient [⟨0, true⟩, ⟨1, true⟩, ⟨2, true⟩] ⟨1, true⟩)
        "$GPRMC,a".toList ∧
    removeClient [⟨0, true⟩, ⟨1, true⟩, ⟨2, true⟩] ⟨7, false⟩ =
      [⟨0, true⟩, ⟨1, true⟩, ⟨2, true⟩] :=
  ⟨(claim_C8_broadcast_isolation [⟨0, true⟩, ⟨1, true⟩, ⟨2, true⟩] ⟨1, true⟩
      ⟨2, true⟩ "$GPRMC,a".toList).1 (by decide) rfl,
   (claim_C8_broadcast_isolation [⟨0, true⟩, ⟨1, true⟩, ⟨2, true⟩] ⟨1, true⟩
      ⟨2, true⟩ "$GPRMC,a".toList).2.1 (by decide) (by decide) rfl,
   (claim_C8_broadcast_isolation [⟨0, true⟩, ⟨1, true⟩, ⟨2, true⟩] ⟨7, false⟩
      ⟨2, true⟩ "$GPRMC,a".toList).2.2 (by decide)⟩
